import Mathlib

/-!
Shallow embedding of the Advanced-todo application's client-side store and
optimistic-mutation coordinator, together with theorems checking the
specification's claims against it.

Sources embedded:
  * `src/store/todoStore.js` (src/unnamed/part_002): `createTodoStore` with
    `subscribe` / `getSnapshot` / `updateTodos`;
  * `src/api/todoApi.js` (src/unnamed/part_003): the simulated remote service;
  * `src/App.jsx`: the four mutation handlers `handleAddTodo`,
    `handleToggleTodo`, `handleDeleteTodo`, `handleUpdateTodo` and the toast
    notifications they emit;
  * `src/components/AddTodoForm.jsx`: input validation in `handleSubmit`.

Modelling conventions:
  * JavaScript's single-threaded, run-to-completion execution is modelled by
    explicit state passing: each handler is a function from the store state
    (plus the outcome of its awaited remote call) to the new store state, the
    list of toasts it shows, and the successive lists it passes to
    `updateTodos` (the store's write trace).
  * A promise that the handler awaits is modelled by an `Except String α`
    argument: `.ok v` is a resolution with value `v`, `.error msg` a rejection
    whose error object has message `msg`.
  * `localStorage` is modelled at the value level by `StorageState`: the JSON
    blob under the key "todos" either is absent (`getItem` returns null),
    fails `JSON.parse` (`corrupt`), cannot be accessed at all (`accessError`,
    `getItem`/`setItem` throw), or holds the serialization of a list
    (`stored l`).  For the plain records stored here, `JSON.parse` after
    `JSON.stringify` is the identity, so the serialized form is represented by
    the list value itself.  `setItem` throwing during `updateTodos` is
    modelled by the `writeOk : Bool` parameter: when it is `false` the storage
    keeps its previous content and the exception is swallowed, exactly as the
    source's try/catch does.
  * Listener identity (JavaScript function references held in the `Set`) is
    modelled by natural-number tokens; the `Set` is a duplicate-free list.
  * `Date.now()` and `new Date().toISOString()` are environment inputs,
    passed as explicit `now : Nat` / `iso : String` parameters.
-/

/-- An item of the todo list, as produced by the store and the simulated API.
`createdAt` is absent (`none`) for speculative items and set by the backend
for confirmed ones. -/
structure Todo where
  id : String
  text : String
  completed : Bool
  createdAt : Option String
deriving Repr, DecidableEq

/-- Value-level model of the `localStorage` slot under the key "todos". -/
inductive StorageState where
  /-- Storage access is unavailable: `getItem` / `setItem` throw. -/
  | accessError : StorageState
  /-- No value stored: `getItem` returns null. -/
  | absent : StorageState
  /-- A stored string that `JSON.parse` rejects. -/
  | corrupt : StorageState
  /-- The JSON serialization of the list `todos`. -/
  | stored (todos : List Todo) : StorageState
deriving Repr, DecidableEq

/-- State of the store created by `createTodoStore` (part_002): the private
`todos` list, the `Set` of listeners (tokens, duplicate-free), and the backing
storage slot. -/
structure TodoStore where
  todos : List Todo
  listeners : List Nat
  storage : StorageState
deriving Repr, DecidableEq

/-- The initialization read in `createTodoStore`:
`stored = localStorage.getItem('todos'); todos = stored ? JSON.parse(stored) : []`
wrapped in try/catch — an access exception, an absent key, and a parse
exception all fall back to the empty list. -/
def loadStoredTodos : StorageState → List Todo
  | .stored l => l
  | .accessError => []
  | .absent => []
  | .corrupt => []

/-- Constructor `createTodoStore` from part_002: listeners start empty, `todos` is read
from storage fail-open. -/
def createTodoStore (st : StorageState) : TodoStore :=
  { todos := loadStoredTodos st, listeners := [], storage := st }

/-- Operation `subscribe(listener)` from part_002: `listeners.add(listener)` —
`Set.add` semantics, a listener already present is not added again. -/
def subscribe (s : TodoStore) (l : Nat) : TodoStore :=
  { s with listeners := if s.listeners.contains l then s.listeners else s.listeners ++ [l] }

/-- The unsubscribe closure returned by `subscribe`:
`() => listeners.delete(listener)`. -/
def unsubscribe (s : TodoStore) (l : Nat) : TodoStore :=
  { s with listeners := s.listeners.filter (fun x => !(x == l)) }

/-- Operation `getSnapshot()` from part_002: returns the current `todos` reference,
without copying or transforming it. -/
def getSnapshot (s : TodoStore) : List Todo :=
  s.todos

/-- Operation `updateTodos(newTodos)` from part_002: replaces `todos`, attempts the
`localStorage.setItem` write (a throw is caught and only logged: with
`writeOk = false` the storage is left as it was), then calls every listener.
The second component is the notification pass: the listeners invoked, in
order, each exactly once (the `Set`'s `forEach`). -/
def updateTodos (s : TodoStore) (newTodos : List Todo) (writeOk : Bool) : TodoStore × List Nat :=
  ({ s with
      todos := newTodos,
      storage := if writeOk then .stored newTodos else s.storage },
   s.listeners)

/-- Operation `todoApi.addTodo(text)` from part_003: awaits `delay(1500)`, then always
resolves with `{id: Date.now().toString(), text, completed: false,
createdAt: new Date().toISOString()}`.  There is no rejection path. -/
def todoApi.addTodo (now : Nat) (iso : String) (text : String) : Except String Todo :=
  .ok { id := Nat.repr now, text := text, completed := false, createdAt := some iso }

/-- Operation `todoApi.toggleTodo(id)` from part_003: awaits `delay(800)`, then always
resolves echoing `id`.  There is no rejection path. -/
def todoApi.toggleTodo (id : String) : Except String String :=
  .ok id

/-- Operation `todoApi.deleteTodo(id)` from part_003: awaits `delay(1000)`, then always
resolves echoing `id`.  There is no rejection path. -/
def todoApi.deleteTodo (id : String) : Except String String :=
  .ok id

/-- Operation `todoApi.updateTodo(id, text)` from part_003: awaits `delay(1000)`, then
always resolves with `{id, text}`.  There is no rejection path. -/
def todoApi.updateTodo (id : String) (text : String) : Except String (String × String) :=
  .ok (id, text)

/-- A toast notification as produced by `showToast(message, type)` in
App.jsx; `toastType` is `"success"` or `"error"`. -/
structure Toast where
  message : String
  toastType : String
deriving Repr, DecidableEq

/-- Result of running one App.jsx mutation handler to settlement: the store
afterwards, the toasts shown in order, and the write trace — the successive
lists passed to `todoStore.updateTodos` (hence the successive authoritative
snapshots and `localStorage.setItem` payloads). -/
structure HandlerResult where
  store : TodoStore
  toasts : List Toast
  writes : List (List Todo)
deriving Repr, DecidableEq

/-- The speculative item built at the top of `handleAddTodo`:
`{id: 'temp-' + Date.now(), text, completed: false}`.  It is passed only to
`addOptimisticTodo` (the `useOptimistic` overlay) and never to
`todoStore.updateTodos`. -/
def tempTodo (now : Nat) (text : String) : Todo :=
  { id := "temp-" ++ Nat.repr now, text := text, completed := false, createdAt := none }

/-- Handler `handleAddTodo` from App.jsx: shows `tempTodo` through the optimistic
overlay only; on resolution writes `[...storedTodos, newTodo]` to the store
and shows a success toast; on rejection performs no store write (the overlay
rolls back by itself), shows the error's message as an error toast, and
rethrows. -/
def handleAddTodo (s : TodoStore) (apiResult : Except String Todo) (writeOk : Bool) :
    HandlerResult :=
  match apiResult with
  | .ok newTodo =>
      ⟨(updateTodos s (s.todos ++ [newTodo]) writeOk).1,
       [⟨"Todo added successfully", "success"⟩],
       [s.todos ++ [newTodo]]⟩
  | .error msg =>
      ⟨s, [⟨msg, "error"⟩], []⟩

/-- Handler `handleToggleTodo` from App.jsx: snapshots `original`, optimistically
writes the flipped list, then on rejection writes `original` back and shows
the fixed message `'Failed to toggle todo'` as an error toast.  On resolution
nothing further happens (no success toast). -/
def handleToggleTodo (s : TodoStore) (id : String) (apiResult : Except String String)
    (writeOk : Bool) : HandlerResult :=
  let original := s.todos
  let updated := s.todos.map fun todo =>
    if todo.id == id then { todo with completed := !todo.completed } else todo
  let s1 := (updateTodos s updated writeOk).1
  match apiResult with
  | .ok _ => ⟨s1, [], [updated]⟩
  | .error _ =>
      ⟨(updateTodos s1 original writeOk).1,
       [⟨"Failed to toggle todo", "error"⟩],
       [updated, original]⟩

/-- Handler `handleDeleteTodo` from App.jsx: optimistically writes the filtered list;
on resolution shows `'Todo deleted'`; on rejection writes `original` back and
shows the fixed message `'Failed to delete todo'` as an error toast. -/
def handleDeleteTodo (s : TodoStore) (id : String) (apiResult : Except String String)
    (writeOk : Bool) : HandlerResult :=
  let original := s.todos
  let updated := s.todos.filter fun todo => !(todo.id == id)
  let s1 := (updateTodos s updated writeOk).1
  match apiResult with
  | .ok _ => ⟨s1, [⟨"Todo deleted", "success"⟩], [updated]⟩
  | .error _ =>
      ⟨(updateTodos s1 original writeOk).1,
       [⟨"Failed to delete todo", "error"⟩],
       [updated, original]⟩

/-- Handler `handleUpdateTodo` from App.jsx: optimistically writes the list with the
matching item's text replaced; on resolution shows `'Todo updated'`; on
rejection writes `original` back and shows the fixed message
`'Failed to update todo'` as an error toast. -/
def handleUpdateTodo (s : TodoStore) (id : String) (newText : String)
    (apiResult : Except String (String × String)) (writeOk : Bool) : HandlerResult :=
  let original := s.todos
  let updated := s.todos.map fun todo =>
    if todo.id == id then { todo with text := newText } else todo
  let s1 := (updateTodos s updated writeOk).1
  match apiResult with
  | .ok _ => ⟨s1, [⟨"Todo updated", "success"⟩], [updated]⟩
  | .error _ =>
      ⟨(updateTodos s1 original writeOk).1,
       [⟨"Failed to update todo", "error"⟩],
       [updated, original]⟩

/-- A user-initiated mutation, with the environment inputs (`Date.now()`,
`toISOString()`) an add observes at the simulated backend. -/
inductive Mutation where
  | add (text : String) (now : Nat) (iso : String) : Mutation
  | toggle (id : String) : Mutation
  | delete (id : String) : Mutation
  | update (id : String) (newText : String) : Mutation
deriving Repr, DecidableEq

/-- Run one mutation handler to settlement with its remote call resolving —
the corresponding `todoApi` operation supplies the resolution value. -/
def runMutation (writeOk : Bool) (s : TodoStore) : Mutation → HandlerResult
  | .add text now iso => handleAddTodo s (todoApi.addTodo now iso text) writeOk
  | .toggle id => handleToggleTodo s id (todoApi.toggleTodo id) writeOk
  | .delete id => handleDeleteTodo s id (todoApi.deleteTodo id) writeOk
  | .update id newText => handleUpdateTodo s id newText (todoApi.updateTodo id newText) writeOk

/-- Modelled from the spec: each mutation's pure list transformation —
"append confirmed item; flip completed of matching id; remove matching id;
replace text of matching id". -/
def specTransform : Mutation → List Todo → List Todo
  | .add text now iso, l =>
      l ++ [{ id := Nat.repr now, text := text, completed := false, createdAt := some iso }]
  | .toggle id, l =>
      l.map fun todo => if todo.id == id then { todo with completed := !todo.completed } else todo
  | .delete id, l => l.filter fun todo => !(todo.id == id)
  | .update id newText, l =>
      l.map fun todo => if todo.id == id then { todo with text := newText } else todo

/-- One mutation together with the outcome of its remote call: `none` means
the call resolved (with the `todoApi` value), `some msg` that it rejected
with an error whose message is `msg`. -/
def runStep (writeOk : Bool) (s : TodoStore) : Mutation × Option String → HandlerResult
  | (m, none) => runMutation writeOk s m
  | (.add _ _ _, some e) => handleAddTodo s (.error e) writeOk
  | (.toggle id, some e) => handleToggleTodo s id (.error e) writeOk
  | (.delete id, some e) => handleDeleteTodo s id (.error e) writeOk
  | (.update id newText, some e) => handleUpdateTodo s id newText (.error e) writeOk

/-- Run a sequence of mutations (each settling before the next is issued,
matching the single-threaded execution model), collecting every list passed
to `updateTodos` along the way. -/
def runStepsWrites (writeOk : Bool) : TodoStore → List (Mutation × Option String) →
    TodoStore × List (List Todo)
  | s, [] => (s, [])
  | s, p :: ps =>
      let r := runStep writeOk s p
      let rest := runStepsWrites writeOk r.store ps
      (rest.1, r.writes ++ rest.2)

/-- Run a sequence of raw `updateTodos` writes (list to write, whether the
`setItem` call succeeds), collecting the concatenated notification passes. -/
def runUpdates : TodoStore → List (List Todo × Bool) → TodoStore × List Nat
  | s, [] => (s, [])
  | s, (n, w) :: rest =>
      let r := updateTodos s n w
      let rr := runUpdates r.1 rest
      (rr.1, r.2 ++ rr.2)

/-- A store interaction that is not an `updateTodos` write. -/
inductive NonWriteOp where
  | subscribeOp (l : Nat) : NonWriteOp
  | unsubscribeOp (l : Nat) : NonWriteOp
  | snapshotOp : NonWriteOp
deriving Repr, DecidableEq

/-- Apply a non-write store operation (`getSnapshot` reads and leaves the
state untouched). -/
def applyNonWrite (s : TodoStore) : NonWriteOp → TodoStore
  | .subscribeOp l => subscribe s l
  | .unsubscribeOp l => unsubscribe s l
  | .snapshotOp => s

/-- The speculative-id test `id.toString().startsWith('temp-')` used in
App.jsx and TodoItem.jsx, over the string's character data
(`['t','e','m','p','-'] = "temp-".data`). -/
def isTempId (s : String) : Bool :=
  List.isPrefixOf ['t', 'e', 'm', 'p', '-'] s.data

/-- A list of items none of which carries a speculative `temp-` id. -/
def noTempIds (l : List Todo) : Bool :=
  l.all fun t => !(isTempId t.id)

/-- JavaScript `String.prototype.trim`'s whitespace set (WhiteSpace and
LineTerminator code points; the unusual ones via `Char.ofNat`). -/
def isJsWhitespace (c : Char) : Bool :=
  [' ', '\t', '\n', '\r', Char.ofNat 0x0B, Char.ofNat 0x0C, Char.ofNat 0xA0,
    Char.ofNat 0x1680, Char.ofNat 0x2000, Char.ofNat 0x2001, Char.ofNat 0x2002,
    Char.ofNat 0x2003, Char.ofNat 0x2004, Char.ofNat 0x2005, Char.ofNat 0x2006,
    Char.ofNat 0x2007, Char.ofNat 0x2008, Char.ofNat 0x2009, Char.ofNat 0x200A,
    Char.ofNat 0x2028, Char.ofNat 0x2029, Char.ofNat 0x202F, Char.ofNat 0x205F,
    Char.ofNat 0x3000, Char.ofNat 0xFEFF].contains c

/-- JavaScript `input.trim()`: strip leading and trailing whitespace. -/
def jsTrim (s : String) : String :=
  ⟨((s.data.dropWhile isJsWhitespace).reverse.dropWhile isJsWhitespace).reverse⟩

/-- Outcome of one submission of the add form (`AddTodoForm.handleSubmit`
composed with `onSubmit = handleAddTodo`): the store afterwards, whether the
remote call was issued at all, the inline form error (from validation, or
from the rethrown remote error), and the toasts shown. -/
structure FormOutcome where
  store : TodoStore
  remoteCalled : Bool
  formError : Option String
  toasts : List Toast
deriving Repr, DecidableEq

/-- Handler `handleSubmit` from AddTodoForm.jsx: `text = input.trim()`; an empty
result sets the inline error `'Please enter a todo'` and returns before
`onSubmit` — so before any store interaction or remote call.  Otherwise it
submits `text` through `handleAddTodo`; a rejection is caught and its message
becomes the inline error. -/
def formSubmit (s : TodoStore) (input : String) (apiResult : Except String Todo)
    (writeOk : Bool) : FormOutcome :=
  let text := jsTrim input
  if text = "" then
    { store := s, remoteCalled := false, formError := some "Please enter a todo", toasts := [] }
  else
    let r := handleAddTodo s apiResult writeOk
    { store := r.store,
      remoteCalled := true,
      formError := match apiResult with | .error e => some e | .ok _ => none,
      toasts := r.toasts }

/-! Helper lemmas: the decimal representation of a natural number starts with
a digit character, so a backend-assigned id (`Date.now().toString()`) never
has the `temp-` prefix. -/

theorem digitChar_isDigit_of_lt (m : Nat) (h : m < 10) :
    (Nat.digitChar m).isDigit = true := by
  interval_cases m <;> decide

theorem toDigitsCore_all_digits :
    ∀ (fuel n : Nat) (ds : List Char), (∀ c ∈ ds, c.isDigit = true) →
      ∀ c ∈ Nat.toDigitsCore 10 fuel n ds, c.isDigit = true := by
  intro fuel
  induction fuel with
  | zero =>
    intro n ds h c hc
    exact h c hc
  | succ fuel ih =>
    intro n ds h c hc
    simp only [Nat.toDigitsCore] at hc
    split at hc
    · rcases List.mem_cons.mp hc with rfl | hmem
      · exact digitChar_isDigit_of_lt _ (Nat.mod_lt _ (by decide))
      · exact h c hmem
    · refine ih (n / 10) _ ?_ c hc
      intro c' hc'
      rcases List.mem_cons.mp hc' with rfl | hmem
      · exact digitChar_isDigit_of_lt _ (Nat.mod_lt _ (by decide))
      · exact h c' hmem

theorem toDigitsCore_ne_nil_of_ne_nil :
    ∀ (fuel n : Nat) (ds : List Char), ds ≠ [] → Nat.toDigitsCore 10 fuel n ds ≠ [] := by
  intro fuel
  induction fuel with
  | zero =>
    intro n ds h
    exact h
  | succ fuel ih =>
    intro n ds _
    simp only [Nat.toDigitsCore]
    split
    · simp
    · exact ih _ _ (by simp)

theorem toDigits_ten_ne_nil (n : Nat) : Nat.toDigits 10 n ≠ [] := by
  show Nat.toDigitsCore 10 (n + 1) n [] ≠ []
  simp only [Nat.toDigitsCore]
  split
  · simp
  · exact toDigitsCore_ne_nil_of_ne_nil _ _ _ (by simp)

theorem repr_data_head_isDigit (n : Nat) :
    ∃ c cs, (Nat.repr n).data = c :: cs ∧ c.isDigit = true := by
  have hall : ∀ c ∈ Nat.toDigits 10 n, c.isDigit = true :=
    toDigitsCore_all_digits (n + 1) n [] (by simp)
  have hdata : (Nat.repr n).data = Nat.toDigits 10 n := rfl
  cases hcons : Nat.toDigits 10 n with
  | nil => exact absurd hcons (toDigits_ten_ne_nil n)
  | cons c cs =>
    refine ⟨c, cs, by rw [hdata, hcons], ?_⟩
    exact hall c (by rw [hcons]; exact List.mem_cons_self _ _)

theorem isTempId_repr (n : Nat) : isTempId (Nat.repr n) = false := by
  obtain ⟨c, cs, hdata, hdigit⟩ := repr_data_head_isDigit n
  have hct : c ≠ 't' := by
    intro h
    subst h
    exact absurd hdigit (by decide)
  simp only [isTempId, hdata, List.isPrefixOf, Bool.and_eq_false_iff]
  left
  simpa using fun h => hct h.symm

/-! Preservation of the no-speculative-id invariant. -/

theorem noTempIds_iff (l : List Todo) :
    noTempIds l = true ↔ ∀ t ∈ l, isTempId t.id = false := by
  simp [noTempIds, List.all_eq_true]

theorem runStep_noTempIds (writeOk : Bool) (s : TodoStore) (p : Mutation × Option String)
    (h : noTempIds s.todos = true) :
    (∀ w ∈ (runStep writeOk s p).writes, noTempIds w = true) ∧
    noTempIds (runStep writeOk s p).store.todos = true := by
  have h' := (noTempIds_iff _).mp h
  obtain ⟨m, o⟩ := p
  have hmapToggle : ∀ (id : String),
      noTempIds (s.todos.map fun todo =>
        if todo.id == id then { todo with completed := !todo.completed } else todo) = true := by
    intro id
    refine (noTempIds_iff _).mpr ?_
    intro t ht
    obtain ⟨u, hu, rfl⟩ := List.mem_map.mp ht
    split <;> exact h' u hu
  have hmapText : ∀ (id newText : String),
      noTempIds (s.todos.map fun todo =>
        if todo.id == id then { todo with text := newText } else todo) = true := by
    intro id newText
    refine (noTempIds_iff _).mpr ?_
    intro t ht
    obtain ⟨u, hu, rfl⟩ := List.mem_map.mp ht
    split <;> exact h' u hu
  have hfilter : ∀ (id : String),
      noTempIds (s.todos.filter fun todo => !(todo.id == id)) = true := by
    intro id
    refine (noTempIds_iff _).mpr ?_
    intro t ht
    exact h' t (List.mem_of_mem_filter ht)
  have happend : ∀ (now : Nat) (iso text : String),
      noTempIds (s.todos ++
        [{ id := Nat.repr now, text := text, completed := false,
           createdAt := some iso }]) = true := by
    intro now iso text
    refine (noTempIds_iff _).mpr ?_
    intro t ht
    rcases List.mem_append.mp ht with hmem | hmem
    · exact h' t hmem
    · rcases List.mem_singleton.mp hmem with rfl
      exact isTempId_repr now
  cases m with
  | add text now iso =>
    cases o with
    | none =>
      refine ⟨?_, happend now iso text⟩
      intro w hw
      rcases List.mem_singleton.mp hw with rfl
      exact happend now iso text
    | some e => exact ⟨by intro w hw; simp [runStep, handleAddTodo] at hw, h⟩
  | toggle id =>
    cases o with
    | none =>
      refine ⟨?_, hmapToggle id⟩
      intro w hw
      rcases List.mem_singleton.mp hw with rfl
      exact hmapToggle id
    | some e =>
      refine ⟨?_, h⟩
      intro w hw
      rcases List.mem_cons.mp hw with rfl | hw
      · exact hmapToggle id
      · rcases List.mem_singleton.mp hw with rfl
        exact h
  | delete id =>
    cases o with
    | none =>
      refine ⟨?_, hfilter id⟩
      intro w hw
      rcases List.mem_singleton.mp hw with rfl
      exact hfilter id
    | some e =>
      refine ⟨?_, h⟩
      intro w hw
      rcases List.mem_cons.mp hw with rfl | hw
      · exact hfilter id
      · rcases List.mem_singleton.mp hw with rfl
        exact h
  | update id newText =>
    cases o with
    | none =>
      refine ⟨?_, hmapText id newText⟩
      intro w hw
      rcases List.mem_singleton.mp hw with rfl
      exact hmapText id newText
    | some e =>
      refine ⟨?_, h⟩
      intro w hw
      rcases List.mem_cons.mp hw with rfl | hw
      · exact hmapText id newText
      · rcases List.mem_singleton.mp hw with rfl
        exact h

theorem runStepsWrites_noTempIds (writeOk : Bool) :
    ∀ (steps : List (Mutation × Option String)) (s : TodoStore),
      noTempIds s.todos = true →
      (∀ w ∈ (runStepsWrites writeOk s steps).2, noTempIds w = true) ∧
      noTempIds (runStepsWrites writeOk s steps).1.todos = true := by
  intro steps
  induction steps with
  | nil =>
    intro s h
    exact ⟨by intro w hw; simp [runStepsWrites] at hw, by simpa [runStepsWrites] using h⟩
  | cons p ps ih =>
    intro s h
    obtain ⟨hw, hs⟩ := runStep_noTempIds writeOk s p h
    obtain ⟨hw', hs'⟩ := ih _ hs
    refine ⟨?_, by simpa [runStepsWrites] using hs'⟩
    intro w hmem
    simp only [runStepsWrites, List.mem_append] at hmem
    rcases hmem with h1 | h2
    · exact hw w h1
    · exact hw' w h2

theorem isTempId_tempTodo (now : Nat) (text : String) :
    isTempId (tempTodo now text).id = true := by
  have h5 : ("temp-" : String).data = ['t', 'e', 'm', 'p', '-'] := rfl
  simp [isTempId, tempTodo, String.data_append, h5, List.isPrefixOf_iff_prefix]

/-- C1: for every authoritative list, a toggle whose remote call fails leaves
the store's snapshot equal to the pre-mutation list (not the optimistic
intermediate state) and emits a notification of type "error". -/
theorem toggle_failure_rolls_back (s : TodoStore) (id err : String) (writeOk : Bool) :
    (handleToggleTodo s id (.error err) writeOk).store.todos = s.todos ∧
    (handleToggleTodo s id (.error err) writeOk).toasts =
      [{ message := "Failed to toggle todo", toastType := "error" }] :=
  ⟨rfl, rfl⟩

/-- C2, counterexample: a failing toggle shows the fixed message
`'Failed to toggle todo'`, not the thrown error's message — so the failure
notification does not carry the remote error message verbatim for every
mutation. -/
theorem failure_toast_not_verbatim_cex :
    (handleToggleTodo ⟨[⟨"1", "a", false, none⟩], [], .absent⟩ "1"
        (.error "network down") true).toasts.map Toast.message =
      ["Failed to toggle todo"] ∧
    ("Failed to toggle todo" : String) ≠ "network down" := by
  decide

/-- C2, amended: only the add mutation's failure notification carries the
remote error's message verbatim; toggle, delete and update failures show the
fixed messages `'Failed to toggle todo'`, `'Failed to delete todo'` and
`'Failed to update todo'`, each of type "error". -/
theorem failure_toast_messages (s : TodoStore) (id newText err : String) (writeOk : Bool) :
    (handleAddTodo s (.error err) writeOk).toasts =
      [{ message := err, toastType := "error" }] ∧
    (handleToggleTodo s id (.error err) writeOk).toasts =
      [{ message := "Failed to toggle todo", toastType := "error" }] ∧
    (handleDeleteTodo s id (.error err) writeOk).toasts =
      [{ message := "Failed to delete todo", toastType := "error" }] ∧
    (handleUpdateTodo s id newText (.error err) writeOk).toasts =
      [{ message := "Failed to update todo", toastType := "error" }] :=
  ⟨rfl, rfl, rfl, rfl⟩

/-- C3: starting from a list without speculative ids, no list ever passed to
`updateTodos` (hence no authoritative snapshot and no `localStorage` payload)
contains a `temp-`-prefixed id, for any sequence of mutations with any
remote outcomes; an add whose remote call fails leaves the store untouched
and performs no write at all; and the speculative item built by
`handleAddTodo` does carry the `temp-` prefix (it lives only in the
optimistic overlay). -/
theorem no_temp_id_invariant (writeOk : Bool) (s : TodoStore)
    (steps : List (Mutation × Option String)) (err text : String) (now : Nat)
    (h : noTempIds s.todos = true) :
    (∀ w ∈ (runStepsWrites writeOk s steps).2, noTempIds w = true) ∧
    noTempIds (runStepsWrites writeOk s steps).1.todos = true ∧
    (handleAddTodo s (.error err) writeOk).store = s ∧
    (handleAddTodo s (.error err) writeOk).writes = [] ∧
    isTempId (tempTodo now text).id = true := by
  obtain ⟨hw, hs⟩ := runStepsWrites_noTempIds writeOk steps s h
  exact ⟨hw, hs, rfl, rfl, isTempId_tempTodo now text⟩

theorem no_temp_id_invariant_witness :
    noTempIds (⟨[], [], .absent⟩ : TodoStore).todos = true ∧
    ((∀ w ∈ (runStepsWrites true ⟨[], [], .absent⟩
          [(.add "a" 5 "t0", none), (.toggle "5", some "boom")]).2,
        noTempIds w = true) ∧
      noTempIds (runStepsWrites true ⟨[], [], .absent⟩
          [(.add "a" 5 "t0", none), (.toggle "5", some "boom")]).1.todos = true ∧
      (handleAddTodo ⟨[], [], .absent⟩ (.error "x") true).store = ⟨[], [], .absent⟩ ∧
      (handleAddTodo ⟨[], [], .absent⟩ (.error "x") true).writes = [] ∧
      isTempId (tempTodo 7 "b").id = true) :=
  ⟨by decide, no_temp_id_invariant true ⟨[], [], .absent⟩
      [(.add "a" 5 "t0", none), (.toggle "5", some "boom")] "x" "b" 7 (by decide)⟩

theorem runMutation_todos (writeOk : Bool) (s : TodoStore) (m : Mutation) :
    (runMutation writeOk s m).store.todos = specTransform m s.todos := by
  cases m <;> rfl

/-- C4: after any sequence of mutations whose remote calls all succeed, run
to settlement in call order, the authoritative list equals the fold of each
mutation's pure list transformation over the initial list. -/
theorem successful_mutations_pure_fold (writeOk : Bool) (s : TodoStore)
    (ms : List Mutation) :
    (ms.foldl (fun st m => (runMutation writeOk st m).store) s).todos =
      ms.foldl (fun l m => specTransform m l) s.todos := by
  induction ms generalizing s with
  | nil => rfl
  | cons m ms ih =>
    simp only [List.foldl_cons]
    rw [ih, runMutation_todos]

/-- C5: `updateItems(x)` with the storage write succeeding followed by a
fresh store construction yields exactly `x`; and when storage access throws,
the key is absent, or the stored value is corrupt JSON, the fresh store's
initial list is empty (initialization is total — it never throws). -/
theorem store_roundtrip_and_fail_open (s : TodoStore) (x : List Todo) :
    (createTodoStore ((updateTodos s x true).1.storage)).todos = x ∧
    (createTodoStore .accessError).todos = [] ∧
    (createTodoStore .absent).todos = [] ∧
    (createTodoStore .corrupt).todos = [] :=
  ⟨rfl, rfl, rfl, rfl⟩

/-- C6: `updateTodos` replaces the in-memory list wholesale and its
notification pass — produced before the call returns — reaches every
currently subscribed observer exactly once; the pass is identical whether or
not the durable-storage write throws. -/
theorem updateTodos_replaces_and_notifies_once (s : TodoStore) (newTodos : List Todo)
    (writeOk : Bool) (h : s.listeners.Nodup) :
    (updateTodos s newTodos writeOk).1.todos = newTodos ∧
    (updateTodos s newTodos writeOk).2 = s.listeners ∧
    (updateTodos s newTodos false).2 = (updateTodos s newTodos true).2 ∧
    ∀ l ∈ s.listeners, (updateTodos s newTodos writeOk).2.count l = 1 := by
  refine ⟨rfl, rfl, rfl, ?_⟩
  intro l hl
  exact List.count_eq_one_of_mem h hl

theorem updateTodos_replaces_and_notifies_once_witness :
    (⟨[], [0, 1], .absent⟩ : TodoStore).listeners.Nodup ∧
    ((updateTodos ⟨[], [0, 1], .absent⟩ [] false).1.todos = [] ∧
      (updateTodos ⟨[], [0, 1], .absent⟩ [] false).2 =
        (⟨[], [0, 1], .absent⟩ : TodoStore).listeners ∧
      (updateTodos ⟨[], [0, 1], .absent⟩ [] false).2 =
        (updateTodos ⟨[], [0, 1], .absent⟩ [] true).2 ∧
      ∀ l ∈ (⟨[], [0, 1], .absent⟩ : TodoStore).listeners,
        (updateTodos ⟨[], [0, 1], .absent⟩ [] false).2.count l = 1) :=
  ⟨by decide, updateTodos_replaces_and_notifies_once ⟨[], [0, 1], .absent⟩ [] false (by decide)⟩

theorem unsubscribe_not_mem (s : TodoStore) (o : Nat) :
    o ∉ (unsubscribe s o).listeners := by
  intro hmem
  simp [unsubscribe] at hmem

theorem runUpdates_count_zero :
    ∀ (ups : List (List Todo × Bool)) (s : TodoStore) (o : Nat), o ∉ s.listeners →
      (runUpdates s ups).2.count o = 0 := by
  intro ups
  induction ups with
  | nil => intro s o _; rfl
  | cons u rest ih =>
    intro s o h
    obtain ⟨n, w⟩ := u
    have h1 : (updateTodos s n w).2.count o = 0 := List.count_eq_zero.mpr h
    have h2 : (runUpdates (updateTodos s n w).1 rest).2.count o = 0 := ih _ o h
    simp only [runUpdates, List.count_append, h1, h2]

/-- C7: once the unsubscribe closure returned by `subscribe` has run, that
observer receives zero further notifications, no matter how many
`updateTodos` writes follow (and whether or not their storage writes
succeed). -/
theorem unsubscribed_observer_silent (s : TodoStore) (o : Nat)
    (ups : List (List Todo × Bool)) :
    (runUpdates (unsubscribe (subscribe s o) o) ups).2.count o = 0 :=
  runUpdates_count_zero ups _ o (unsubscribe_not_mem _ o)

/-- C8: `getSnapshot` returns the stored list itself, and any sequence of
store interactions that contains no `updateTodos` write (subscriptions,
unsubscriptions, snapshot reads) leaves the returned list the very value it
was before — callers can detect "no change" by comparing snapshots. -/
theorem getSnapshot_stable_without_writes (s : TodoStore) (ops : List NonWriteOp) :
    getSnapshot s = s.todos ∧
    getSnapshot (ops.foldl applyNonWrite s) = getSnapshot s := by
  refine ⟨rfl, ?_⟩
  induction ops generalizing s with
  | nil => rfl
  | cons op rest ih =>
    simp only [List.foldl_cons]
    rw [ih]
    cases op <;> rfl

/-- C9: a submission whose input is empty or whitespace-only after trimming
leaves the store untouched, issues no remote call, shows the inline
validation message `'Please enter a todo'`, and shows no toast — the
rejection happens before any store interaction. -/
theorem empty_input_rejected_before_store (s : TodoStore) (input : String)
    (apiResult : Except String Todo) (writeOk : Bool) (h : jsTrim input = "") :
    formSubmit s input apiResult writeOk =
      { store := s, remoteCalled := false,
        formError := some "Please enter a todo", toasts := [] } := by
  simp [formSubmit, h]

theorem empty_input_rejected_before_store_witness :
    jsTrim "   " = "" ∧
    formSubmit ⟨[], [], .absent⟩ "   " (.ok ⟨"1", "x", false, none⟩) true =
      { store := ⟨[], [], .absent⟩, remoteCalled := false,
        formError := some "Please enter a todo", toasts := [] } :=
  ⟨by decide,
    empty_input_rejected_before_store ⟨[], [], .absent⟩ "   "
      (.ok ⟨"1", "x", false, none⟩) true (by decide)⟩

/-- C10: every simulated remote operation resolves successfully on every
input (none has a rejection path), so each mutation handler run against the
real `todoApi` takes only its success branch: no error toast is ever shown
and exactly one store write (the optimistic/confirmed one, never a rollback)
is performed. -/
theorem api_always_resolves_no_rollback (s : TodoStore) (id text newText iso : String)
    (now : Nat) (writeOk : Bool) :
    (todoApi.addTodo now iso text).isOk = true ∧
    todoApi.toggleTodo id = .ok id ∧
    todoApi.deleteTodo id = .ok id ∧
    todoApi.updateTodo id newText = .ok (id, newText) ∧
    ((handleAddTodo s (todoApi.addTodo now iso text) writeOk).toasts.all
        (fun t => t.toastType == "success") = true ∧
      (handleAddTodo s (todoApi.addTodo now iso text) writeOk).writes.length = 1) ∧
    ((handleToggleTodo s id (todoApi.toggleTodo id) writeOk).toasts.all
        (fun t => t.toastType == "success") = true ∧
      (handleToggleTodo s id (todoApi.toggleTodo id) writeOk).writes.length = 1) ∧
    ((handleDeleteTodo s id (todoApi.deleteTodo id) writeOk).toasts.all
        (fun t => t.toastType == "success") = true ∧
      (handleDeleteTodo s id (todoApi.deleteTodo id) writeOk).writes.length = 1) ∧
    ((handleUpdateTodo s id newText (todoApi.updateTodo id newText) writeOk).toasts.all
        (fun t => t.toastType == "success") = true ∧
      (handleUpdateTodo s id newText (todoApi.updateTodo id newText) writeOk).writes.length
        = 1) :=
  ⟨rfl, rfl, rfl, rfl, ⟨rfl, rfl⟩, ⟨rfl, rfl⟩, ⟨rfl, rfl⟩, ⟨rfl, rfl⟩⟩
